import Mathlib

/-!
Shallow embedding of the Spotify top-tracks playlist generator
(`spotify_top_tracks_generator/__main__.py` and `config.py`).

Python dictionaries coming back from the remote API are modelled as
structures whose fields are `Option`-valued where the code reads them with
`dict.get` (so a missing or null key is `none`).  Every function that talks
to the remote service is parametrised by a `Spotify` oracle giving the
outcome of each remote call, returns `Except String` for Python exceptions
(the exception's message as the string), and also returns the list of
`ApiEvent`s it performed, in order, so that call-sequence properties can be
stated.  Python truthiness of an optional string (`None` and `""` are
falsy) is `truthy`.  The module-level `SPOTIFY_USERNAME` is passed
explicitly as a `user` argument.  Python string literals containing quote
characters are rendered here without the quotes (e.g. the list in the
invalid-time-range message).
-/

/-- A track dictionary; only its `id` key is ever read (`track.get("id")`). -/
structure Track where
  id : Option String
deriving DecidableEq

/-- A playlist dictionary; the code reads `playlist.get("name", "")` and
`playlist.get("id")`. -/
structure Playlist where
  name : Option String
  id : Option String
deriving DecidableEq

/-- Python truthiness of an optional string: `None` and the empty string are
falsy, every other string is truthy. -/
def truthy : Option String → Bool
  | none => false
  | some s => s ≠ ""

/-- Response of `current_user_top_tracks`; the code reads `.get("items")`. -/
structure TopTracksResponse where
  items : Option (List Track)
deriving DecidableEq

/-- One page of `current_user_playlists`; the code reads
`.get("items", [])` and `.get("next")` (a URL or null). -/
structure PlaylistsPage where
  items : Option (List Playlist)
  next : Option String
deriving DecidableEq

/-- Response of `user_playlist_create`; the code reads `.get("id")`. -/
structure CreateResponse where
  id : Option String
deriving DecidableEq

/-- Oracle for the spotipy client: the outcome of each remote call the
program can make.  `Except.error e` models the call raising an exception
whose message is `e`. -/
structure Spotify where
  current_user_top_tracks : Nat → String → Except String TopTracksResponse
  current_user_playlists : Nat → Nat → Except String PlaylistsPage
  user_playlist_create : String → String → String → Except String CreateResponse
  user_playlist_add_tracks : String → String → List String → Except String Unit
  user_playlist_replace_tracks : String → String → List String → Except String Unit
  playlist_change_details : String → String → Except String Unit

/-- A remote call or log line performed by the program, recorded in order. -/
inductive ApiEvent where
  | topTracksCall (limit : Nat) (timeRange : String)
  | playlistsCall (offset limit : Nat)
  | createCall (user name descr : String)
  | addTracksCall (user playlistId : String) (trackIds : List String)
  | replaceTracksCall (user playlistId : String) (trackIds : List String)
  | changeDetailsCall (playlistId descr : String)
  | logError (msg : String)
deriving DecidableEq

/-- Whether an event is a network call (everything except a log line). -/
def ApiEvent.isApiCall : ApiEvent → Bool
  | .logError _ => false
  | _ => true

/-- Whether an event is a playlist-creation call. -/
def ApiEvent.isCreate : ApiEvent → Bool
  | .createCall .. => true
  | _ => false

/-- Whether an event is an add-tracks call. -/
def ApiEvent.isAdd : ApiEvent → Bool
  | .addTracksCall .. => true
  | _ => false

/-- Whether an event is a replace-tracks call. -/
def ApiEvent.isReplace : ApiEvent → Bool
  | .replaceTracksCall .. => true
  | _ => false

/-- Whether an event is a description-update call. -/
def ApiEvent.isChangeDetails : ApiEvent → Bool
  | .changeDetailsCall .. => true
  | _ => false

/-- Number of events of a given kind in a trace. -/
def countEvents (p : ApiEvent → Bool) (evs : List ApiEvent) : Nat :=
  (evs.filter p).length

/-- config.py: `TOP_SHORT_TERM_PLAYLIST_NAME`. -/
def TOP_SHORT_TERM_PLAYLIST_NAME : String := "Top Songs - Last Month"

/-- config.py: `TOP_MEDIUM_TERM_PLAYLIST_NAME`. -/
def TOP_MEDIUM_TERM_PLAYLIST_NAME : String := "Top Songs - Last 6 Months"

/-- config.py: `TOP_LONG_TERM_PLAYLIST_NAME`. -/
def TOP_LONG_TERM_PLAYLIST_NAME : String := "Top Songs - All Time"

/-- config.py: `DEFAULT_TIME_FRAMES`. -/
def DEFAULT_TIME_FRAMES : List String := ["short_term", "medium_term"]

/-- `__main__.py` `get_top_tracks`: validates the time range against the
three valid values before the one network read; on a bad value it raises
`ValueError` with a message listing the valid values and performs no call.
(The Python f-string renders the list with quoted elements; the quotes are
omitted here.)  Returns `top_tracks_info.get("items")`. -/
def get_top_tracks (sp : Spotify) (time_range : String) (limit : Nat) :
    Except String (Option (List Track)) × List ApiEvent :=
  if time_range ∉ ["short_term", "medium_term", "long_term"] then
    (.error "Invalid time_range. Please choose from [short_term, medium_term, long_term]", [])
  else
    match sp.current_user_top_tracks limit time_range with
    | .error e => (.error e, [.topTracksCall limit time_range])
    | .ok resp => (.ok resp.items, [.topTracksCall limit time_range])

/-- `__main__.py` `get_track_ids`: the comprehension
`[track.get("id") for track in tracks if track.get("id") is not None]`. -/
def get_track_ids (tracks : List Track) : List String :=
  (tracks.filter fun t => t.id.isSome).map fun t => t.id.getD ""

/-- `__main__.py` `get_playlist_id_by_name`: linear scan returning the first
playlist whose `get("name", "")` equals `name`, yielding its `get("id")`;
`none` when no playlist matches. -/
def get_playlist_id_by_name : List Playlist → String → Option String
  | [], _ => none
  | p :: rest, nm =>
    if p.name.getD "" = nm then p.id else get_playlist_id_by_name rest nm

/-- `__main__.py` `create_playlist`: performs the create call; any exception
from it, including the `ValueError` raised inside the `try` when the
response carries no usable id, is wrapped as `Failed to create playlist:`
followed by the original message. -/
def create_playlist (sp : Spotify) (user nm descr : String) :
    Except String String × List ApiEvent :=
  match sp.user_playlist_create user nm descr with
  | .error e =>
    (.error ("Failed to create playlist: " ++ e), [.createCall user nm descr])
  | .ok resp =>
    if truthy resp.id then (.ok (resp.id.getD ""), [.createCall user nm descr])
    else
      (.error ("Failed to create playlist: " ++
          "Failed to retrieve playlist ID from the Spotify API response."),
        [.createCall user nm descr])

/-- `__main__.py` `create_or_replace_playlist`: looks up the playlist id by
name and branches on the truthiness of the looked-up id.  Replace branch:
one replace-tracks call, then one description-update call.  Create branch:
`create_playlist`, then one add-tracks call on the new id.  Errors from
replace, update and add are not wrapped. -/
def create_or_replace_playlist (sp : Spotify) (user : String)
    (playlists : List Playlist) (playlist_name : String)
    (track_ids : List String) (descr : String) :
    Except String Unit × List ApiEvent :=
  let existing := get_playlist_id_by_name playlists playlist_name
  if truthy existing then
    let pid := existing.getD ""
    match sp.user_playlist_replace_tracks user pid track_ids with
    | .error e => (.error e, [.replaceTracksCall user pid track_ids])
    | .ok _ =>
      match sp.playlist_change_details pid descr with
      | .error e =>
        (.error e,
          [.replaceTracksCall user pid track_ids, .changeDetailsCall pid descr])
      | .ok _ =>
        (.ok (),
          [.replaceTracksCall user pid track_ids, .changeDetailsCall pid descr])
  else
    match create_playlist sp user playlist_name descr with
    | (.error e, evs) => (.error e, evs)
    | (.ok pid, evs) =>
      match sp.user_playlist_add_tracks user pid track_ids with
      | .error e => (.error e, evs ++ [.addTracksCall user pid track_ids])
      | .ok _ => (.ok (), evs ++ [.addTracksCall user pid track_ids])

/-- Helper: when every playlist fails the name test, the scan returns
`none`. -/
theorem get_playlist_id_by_name_eq_none (ps : List Playlist) (nm : String)
    (h : ∀ q ∈ ps, q.name.getD "" ≠ nm) :
    get_playlist_id_by_name ps nm = none := by
  induction ps with
  | nil => rfl
  | cons p rest ih =>
    simp only [get_playlist_id_by_name]
    rw [if_neg (h p (List.mem_cons_self p rest))]
    exact ih fun q hq => h q (List.mem_cons_of_mem p hq)

/-- Helper: the scan returns the id field of the first name-matching
playlist. -/
theorem get_playlist_id_by_name_first (pre : List Playlist) (p : Playlist)
    (suf : List Playlist) (nm : String)
    (hpre : ∀ q ∈ pre, q.name.getD "" ≠ nm) (hp : p.name.getD "" = nm) :
    get_playlist_id_by_name (pre ++ p :: suf) nm = p.id := by
  induction pre with
  | nil =>
    simp only [List.nil_append, get_playlist_id_by_name]
    rw [if_pos hp]
  | cons q rest ih =>
    simp only [List.cons_append, get_playlist_id_by_name]
    rw [if_neg (hpre q (List.mem_cons_self q rest))]
    exact ih fun r hr => hpre r (List.mem_cons_of_mem q hr)

/-- C7: `get_track_ids` equals `filterMap` of the id field (it drops exactly
the entries whose id is absent, keeping the rest in order); dropping an
id-less entry anywhere leaves the result unchanged; and on a list whose
entries all carry an id it returns one identifier per entry, in the input
order, so the length is preserved. -/
theorem get_track_ids_spec :
    (∀ ts : List Track, get_track_ids ts = ts.filterMap Track.id)
    ∧ (∀ (ts1 : List Track) (t : Track) (ts2 : List Track), t.id = none →
        get_track_ids (ts1 ++ t :: ts2) = get_track_ids (ts1 ++ ts2))
    ∧ (∀ ts : List Track, (∀ t ∈ ts, t.id.isSome = true) →
        get_track_ids ts = ts.map (fun t => t.id.getD "")
        ∧ (get_track_ids ts).length = ts.length) := by
  have key : ∀ ts : List Track, get_track_ids ts = ts.filterMap Track.id := by
    intro ts
    induction ts with
    | nil => rfl
    | cons t rest ih =>
      cases h : t.id with
      | none =>
        simp only [get_track_ids, List.filter_cons, List.filterMap_cons, h] at *
        simpa using ih
      | some v =>
        simp only [get_track_ids] at ih
        simp [get_track_ids, List.filter_cons, List.filterMap_cons, h, ih]
  refine ⟨key, ?_, ?_⟩
  · intro ts1 t ts2 ht
    rw [key, key, List.filterMap_append, List.filterMap_append,
      List.filterMap_cons, ht]
  · intro ts hall
    constructor
    · rw [key]
      induction ts with
      | nil => rfl
      | cons t rest ih =>
        have ht := hall t (List.mem_cons_self t rest)
        cases h : t.id with
        | none => rw [h] at ht; simp at ht
        | some v =>
          simp only [List.filterMap_cons, List.map_cons, h, Option.getD_some]
          exact congrArg (v :: ·) (ih fun q hq => hall q (List.mem_cons_of_mem t hq))
    · rw [key]
      induction ts with
      | nil => rfl
      | cons t rest ih =>
        have ht := hall t (List.mem_cons_self t rest)
        cases h : t.id with
        | none => rw [h] at ht; simp at ht
        | some v =>
          simp only [List.filterMap_cons, h, List.length_cons]
          exact congrArg (· + 1) (ih fun q hq => hall q (List.mem_cons_of_mem t hq))

/-- Witness for C7 at concrete inputs: a track without an id is dropped,
and an all-valid three-track list yields its three ids in order. -/
theorem get_track_ids_spec_witness :
    get_track_ids [⟨some "a"⟩, ⟨none⟩, ⟨some "b"⟩] = get_track_ids [⟨some "a"⟩, ⟨some "b"⟩]
    ∧ get_track_ids [⟨some "a"⟩, ⟨some "b"⟩, ⟨some "c"⟩] = ["a", "b", "c"]
    ∧ (get_track_ids [⟨some "a"⟩, ⟨some "b"⟩, ⟨some "c"⟩]).length = 3 := by
  refine ⟨get_track_ids_spec.2.1 [⟨some "a"⟩] ⟨none⟩ [⟨some "b"⟩] rfl, ?_, ?_⟩
  · have h := (get_track_ids_spec.2.2 [⟨some "a"⟩, ⟨some "b"⟩, ⟨some "c"⟩]
      (by decide)).1
    simpa using h
  · exact (get_track_ids_spec.2.2 [⟨some "a"⟩, ⟨some "b"⟩, ⟨some "c"⟩]
      (by decide)).2

/-- C8: `get_playlist_id_by_name` returns `none` on the empty list and
whenever no playlist name equals the query; it returns the id field of the
first name-matching playlist; and the comparison is exact (case differences
and surrounding whitespace do not match). -/
theorem get_playlist_id_by_name_spec :
    (∀ nm : String, get_playlist_id_by_name [] nm = none)
    ∧ (∀ (ps : List Playlist) (nm : String), (∀ q ∈ ps, q.name.getD "" ≠ nm) →
        get_playlist_id_by_name ps nm = none)
    ∧ (∀ (pre : List Playlist) (p : Playlist) (suf : List Playlist) (nm : String),
        (∀ q ∈ pre, q.name.getD "" ≠ nm) → p.name.getD "" = nm →
        get_playlist_id_by_name (pre ++ p :: suf) nm = p.id)
    ∧ get_playlist_id_by_name [⟨some "abc", some "x"⟩] "ABC" = none
    ∧ get_playlist_id_by_name [⟨some " abc", some "x"⟩] "abc" = none := by
  exact ⟨fun _ => rfl, get_playlist_id_by_name_eq_none,
    get_playlist_id_by_name_first, by decide, by decide⟩

/-- Witness for C8 at concrete inputs: no match gives `none`; with two
playlists named "B" the first one's id is returned. -/
theorem get_playlist_id_by_name_spec_witness :
    get_playlist_id_by_name [⟨some "A", some "1"⟩] "B" = none
    ∧ get_playlist_id_by_name
        [⟨some "A", some "1"⟩, ⟨some "B", some "2"⟩, ⟨some "B", some "3"⟩] "B" =
      some "2" := by
  exact ⟨get_playlist_id_by_name_spec.2.1 [⟨some "A", some "1"⟩] "B" (by decide),
    get_playlist_id_by_name_spec.2.2.1 [⟨some "A", some "1"⟩]
      ⟨some "B", some "2"⟩ [⟨some "B", some "3"⟩] "B" (by decide) (by decide)⟩

/-- `__main__.py` `get_top_playlist_name`: maps each of the three valid time
frames to its configured constant name and raises `ValueError` naming the
offending value otherwise. -/
def get_top_playlist_name (time_frame : String) : Except String String :=
  if time_frame = "short_term" then .ok TOP_SHORT_TERM_PLAYLIST_NAME
  else if time_frame = "medium_term" then .ok TOP_MEDIUM_TERM_PLAYLIST_NAME
  else if time_frame = "long_term" then .ok TOP_LONG_TERM_PLAYLIST_NAME
  else .error ("Invalid time frame: " ++ time_frame)

/-- C9: `get_top_playlist_name` maps the three valid time frames to three
pairwise-distinct constant names and fails on any other input with an
invalid-argument error naming the offending value. -/
theorem get_top_playlist_name_spec :
    get_top_playlist_name "short_term" = .ok "Top Songs - Last Month"
    ∧ get_top_playlist_name "medium_term" = .ok "Top Songs - Last 6 Months"
    ∧ get_top_playlist_name "long_term" = .ok "Top Songs - All Time"
    ∧ TOP_SHORT_TERM_PLAYLIST_NAME ≠ TOP_MEDIUM_TERM_PLAYLIST_NAME
    ∧ TOP_SHORT_TERM_PLAYLIST_NAME ≠ TOP_LONG_TERM_PLAYLIST_NAME
    ∧ TOP_MEDIUM_TERM_PLAYLIST_NAME ≠ TOP_LONG_TERM_PLAYLIST_NAME
    ∧ (∀ tf : String, tf ∉ ["short_term", "medium_term", "long_term"] →
        get_top_playlist_name tf = .error ("Invalid time frame: " ++ tf)) := by
  refine ⟨rfl, rfl, rfl, by decide, by decide, by decide, ?_⟩
  intro tf htf
  simp at htf
  obtain ⟨h1, h2, h3⟩ := htf
  simp only [get_top_playlist_name, if_neg h1, if_neg h2]
  rw [if_neg h3]

/-- Witness for C9 at a concrete invalid input. -/
theorem get_top_playlist_name_spec_witness :
    "yearly" ∉ ["short_term", "medium_term", "long_term"]
    ∧ get_top_playlist_name "yearly" = .error "Invalid time frame: yearly" :=
  ⟨by decide, get_top_playlist_name_spec.2.2.2.2.2.2 "yearly" (by decide)⟩

/-- An oracle whose every remote call fails with a network error. -/
def spAllFail : Spotify where
  current_user_top_tracks := fun _ _ => .error "network down"
  current_user_playlists := fun _ _ => .error "network down"
  user_playlist_create := fun _ _ _ => .error "network down"
  user_playlist_add_tracks := fun _ _ _ => .error "network down"
  user_playlist_replace_tracks := fun _ _ _ => .error "network down"
  playlist_change_details := fun _ _ => .error "network down"

/-- An oracle whose every remote call succeeds; creation returns the id
`PID` and the reads return empty results. -/
def spAllOk : Spotify where
  current_user_top_tracks := fun _ _ => .ok ⟨some []⟩
  current_user_playlists := fun _ _ => .ok ⟨some [], none⟩
  user_playlist_create := fun _ _ _ => .ok ⟨some "PID"⟩
  user_playlist_add_tracks := fun _ _ _ => .ok ()
  user_playlist_replace_tracks := fun _ _ _ => .ok ()
  playlist_change_details := fun _ _ => .ok ()

/-- C4: for every time-range value outside the three valid ones,
`get_top_tracks` fails with the invalid-argument error that lists the valid
values, and its event trace is empty: zero network calls are performed. -/
theorem get_top_tracks_invalid_spec (sp : Spotify) (time_range : String)
    (limit : Nat)
    (h : time_range ∉ ["short_term", "medium_term", "long_term"]) :
    get_top_tracks sp time_range limit =
      (.error "Invalid time_range. Please choose from [short_term, medium_term, long_term]",
        []) := by
  simp only [get_top_tracks]
  rw [if_pos h]

/-- Witness for C4 at the concrete invalid value `yearly`, on an oracle
whose calls would all fail if reached. -/
theorem get_top_tracks_invalid_spec_witness :
    "yearly" ∉ ["short_term", "medium_term", "long_term"]
    ∧ get_top_tracks spAllFail "yearly" 50 =
      (.error "Invalid time_range. Please choose from [short_term, medium_term, long_term]",
        []) :=
  ⟨by decide, get_top_tracks_invalid_spec spAllFail "yearly" 50 (by decide)⟩

/-- Helper: `create_playlist` performs exactly one create call, whatever the
outcome. -/
theorem create_playlist_events (sp : Spotify) (user nm descr : String) :
    (create_playlist sp user nm descr).2 = [.createCall user nm descr] := by
  unfold create_playlist
  cases sp.user_playlist_create user nm descr with
  | error e => rfl
  | ok resp => cases h : truthy resp.id <;> simp [h]

/-- Helper: call counts and traces of the create branch of
`create_or_replace_playlist` (taken when the looked-up id is falsy). -/
theorem create_branch_behavior (sp : Spotify) (user : String)
    (ps : List Playlist) (nm : String) (ids : List String) (descr : String)
    (hb : truthy (get_playlist_id_by_name ps nm) = false) :
    countEvents ApiEvent.isReplace (create_or_replace_playlist sp user ps nm ids descr).2 = 0
    ∧ countEvents ApiEvent.isChangeDetails (create_or_replace_playlist sp user ps nm ids descr).2 = 0
    ∧ countEvents ApiEvent.isCreate (create_or_replace_playlist sp user ps nm ids descr).2 = 1
    ∧ (∀ pid : String, pid ≠ "" →
        sp.user_playlist_create user nm descr = .ok ⟨some pid⟩ →
        (create_or_replace_playlist sp user ps nm ids descr).2 =
          [.createCall user nm descr, .addTracksCall user pid ids]) := by
  cases hc : sp.user_playlist_create user nm descr with
  | error e =>
    have : create_or_replace_playlist sp user ps nm ids descr =
        (.error ("Failed to create playlist: " ++ e), [.createCall user nm descr]) := by
      simp [create_or_replace_playlist, hb, create_playlist, hc]
    rw [this]
    refine ⟨rfl, rfl, rfl, ?_⟩
    intro pid _ hpc
    exact absurd hpc (by simp)
  | ok resp =>
    cases hres : truthy resp.id with
    | false =>
      have : (create_or_replace_playlist sp user ps nm ids descr).2 =
          [.createCall user nm descr] := by
        simp [create_or_replace_playlist, hb, create_playlist, hc, hres]
      rw [this]
      refine ⟨rfl, rfl, rfl, ?_⟩
      intro pid hpid hpc
      injection hpc with h
      subst h
      simp [truthy, hpid] at hres
    | true =>
      have : (create_or_replace_playlist sp user ps nm ids descr).2 =
          [.createCall user nm descr, .addTracksCall user (resp.id.getD "") ids] := by
        cases ha : sp.user_playlist_add_tracks user (resp.id.getD "") ids <;>
          simp [create_or_replace_playlist, hb, create_playlist, hc, hres, ha]
      rw [this]
      refine ⟨rfl, rfl, rfl, ?_⟩
      intro pid _ hpc
      injection hpc with h
      subst h
      rfl

/-- Helper: call counts and traces of the replace branch of
`create_or_replace_playlist` (taken when the looked-up id is truthy). -/
theorem replace_branch_behavior (sp : Spotify) (user : String)
    (ps : List Playlist) (nm : String) (ids : List String) (descr : String)
    (hb : truthy (get_playlist_id_by_name ps nm) = true) :
    countEvents ApiEvent.isCreate (create_or_replace_playlist sp user ps nm ids descr).2 = 0
    ∧ countEvents ApiEvent.isAdd (create_or_replace_playlist sp user ps nm ids descr).2 = 0
    ∧ countEvents ApiEvent.isReplace (create_or_replace_playlist sp user ps nm ids descr).2 = 1
    ∧ (sp.user_playlist_replace_tracks user
          ((get_playlist_id_by_name ps nm).getD "") ids = .ok () →
        (create_or_replace_playlist sp user ps nm ids descr).2 =
          [.replaceTracksCall user ((get_playlist_id_by_name ps nm).getD "") ids,
            .changeDetailsCall ((get_playlist_id_by_name ps nm).getD "") descr]) := by
  cases hr : sp.user_playlist_replace_tracks user
      ((get_playlist_id_by_name ps nm).getD "") ids with
  | error e =>
    have : (create_or_replace_playlist sp user ps nm ids descr).2 =
        [.replaceTracksCall user ((get_playlist_id_by_name ps nm).getD "") ids] := by
      simp [create_or_replace_playlist, hb, hr]
    rw [this]
    refine ⟨rfl, rfl, rfl, ?_⟩
    intro hok
    exact absurd hok (by simp)
  | ok u =>
    have : (create_or_replace_playlist sp user ps nm ids descr).2 =
        [.replaceTracksCall user ((get_playlist_id_by_name ps nm).getD "") ids,
          .changeDetailsCall ((get_playlist_id_by_name ps nm).getD "") descr] := by
      cases hd : sp.playlist_change_details
          ((get_playlist_id_by_name ps nm).getD "") descr <;>
        simp [create_or_replace_playlist, hb, hr, hd]
    rw [this]
    exact ⟨rfl, rfl, rfl, fun _ => rfl⟩

/-- Counterexample to C5 as stated: with a single playlist whose name
matches the target but whose id field is absent, `create_or_replace_playlist`
issues a create call and no replace call, although a playlist matches the
name. -/
theorem create_or_replace_match_counterexample :
    (([⟨some "Top Songs - Last Month", none⟩] : List Playlist).filter
        (fun p => p.name.getD "" == "Top Songs - Last Month")).length = 1
    ∧ countEvents ApiEvent.isReplace
        (create_or_replace_playlist spAllOk "u"
          [⟨some "Top Songs - Last Month", none⟩] "Top Songs - Last Month"
          ["a"] "d").2 = 0
    ∧ countEvents ApiEvent.isChangeDetails
        (create_or_replace_playlist spAllOk "u"
          [⟨some "Top Songs - Last Month", none⟩] "Top Songs - Last Month"
          ["a"] "d").2 = 0
    ∧ countEvents ApiEvent.isCreate
        (create_or_replace_playlist spAllOk "u"
          [⟨some "Top Songs - Last Month", none⟩] "Top Songs - Last Month"
          ["a"] "d").2 = 1 := by
  decide

/-- C5 (amended): the branch taken is decided by the truthiness of the
looked-up id.  When it is falsy (no name match, or the first match carries
no usable id), exactly one create call and never a replace or
description-update call, and when creation succeeds with a non-empty id the
trace is exactly the create call followed by the add-tracks call.  When it
is truthy, exactly one replace call and never a create or add call, and
when the replace succeeds the trace is exactly the replace call followed by
the description-update call. -/
theorem create_or_replace_calls_spec (sp : Spotify) (user : String)
    (ps : List Playlist) (nm : String) (ids : List String) (descr : String) :
    (truthy (get_playlist_id_by_name ps nm) = false →
      countEvents ApiEvent.isReplace (create_or_replace_playlist sp user ps nm ids descr).2 = 0
      ∧ countEvents ApiEvent.isChangeDetails (create_or_replace_playlist sp user ps nm ids descr).2 = 0
      ∧ countEvents ApiEvent.isCreate (create_or_replace_playlist sp user ps nm ids descr).2 = 1
      ∧ (∀ pid : String, pid ≠ "" →
          sp.user_playlist_create user nm descr = .ok ⟨some pid⟩ →
          (create_or_replace_playlist sp user ps nm ids descr).2 =
            [.createCall user nm descr, .addTracksCall user pid ids]))
    ∧ (truthy (get_playlist_id_by_name ps nm) = true →
      countEvents ApiEvent.isCreate (create_or_replace_playlist sp user ps nm ids descr).2 = 0
      ∧ countEvents ApiEvent.isAdd (create_or_replace_playlist sp user ps nm ids descr).2 = 0
      ∧ countEvents ApiEvent.isReplace (create_or_replace_playlist sp user ps nm ids descr).2 = 1
      ∧ (sp.user_playlist_replace_tracks user
            ((get_playlist_id_by_name ps nm).getD "") ids = .ok () →
          (create_or_replace_playlist sp user ps nm ids descr).2 =
            [.replaceTracksCall user ((get_playlist_id_by_name ps nm).getD "") ids,
              .changeDetailsCall ((get_playlist_id_by_name ps nm).getD "") descr])) :=
  ⟨fun hb => create_branch_behavior sp user ps nm ids descr hb,
    fun hb => replace_branch_behavior sp user ps nm ids descr hb⟩

/-- Witness for the amended C5 at concrete inputs: with no matching
playlist, the trace is exactly one create call then one add-tracks call;
with a match carrying id `P1`, exactly one replace call then one
description-update call. -/
theorem create_or_replace_calls_spec_witness :
    (create_or_replace_playlist spAllOk "u" [] "N" ["a"] "d").2 =
      [.createCall "u" "N" "d", .addTracksCall "u" "PID" ["a"]]
    ∧ countEvents ApiEvent.isReplace
        (create_or_replace_playlist spAllOk "u" [] "N" ["a"] "d").2 = 0
    ∧ (create_or_replace_playlist spAllOk "u" [⟨some "N", some "P1"⟩] "N" ["a"] "d").2 =
      [.replaceTracksCall "u" "P1" ["a"], .changeDetailsCall "P1" "d"]
    ∧ countEvents ApiEvent.isCreate
        (create_or_replace_playlist spAllOk "u" [⟨some "N", some "P1"⟩] "N" ["a"] "d").2 = 0 :=
  ⟨((create_or_replace_calls_spec spAllOk "u" [] "N" ["a"] "d").1
      (by decide)).2.2.2 "PID" (by decide) rfl,
    ((create_or_replace_calls_spec spAllOk "u" [] "N" ["a"] "d").1 (by decide)).1,
    ((create_or_replace_calls_spec spAllOk "u" [⟨some "N", some "P1"⟩] "N" ["a"] "d").2
      (by decide)).2.2.2 rfl,
    ((create_or_replace_calls_spec spAllOk "u" [⟨some "N", some "P1"⟩] "N" ["a"] "d").2
      (by decide)).1⟩

/-- C10: when the first name-matching playlist carries a missing, null or
empty-string id, `create_or_replace_playlist` takes the create branch (one
create call, no replace call, no description-update call) even though a
playlist with the target name is present. -/
theorem create_branch_on_falsy_id (sp : Spotify) (user : String)
    (pre : List Playlist) (p : Playlist) (suf : List Playlist) (nm : String)
    (ids : List String) (descr : String)
    (hpre : ∀ q ∈ pre, q.name.getD "" ≠ nm) (hp : p.name.getD "" = nm)
    (hid : p.id = none ∨ p.id = some "") :
    countEvents ApiEvent.isCreate
      (create_or_replace_playlist sp user (pre ++ p :: suf) nm ids descr).2 = 1
    ∧ countEvents ApiEvent.isReplace
      (create_or_replace_playlist sp user (pre ++ p :: suf) nm ids descr).2 = 0
    ∧ countEvents ApiEvent.isChangeDetails
      (create_or_replace_playlist sp user (pre ++ p :: suf) nm ids descr).2 = 0 := by
  have hfirst := get_playlist_id_by_name_first pre p suf nm hpre hp
  have hb : truthy (get_playlist_id_by_name (pre ++ p :: suf) nm) = false := by
    rcases hid with h | h <;> rw [hfirst, h] <;> rfl
  obtain ⟨h1, h2, h3, _⟩ := create_branch_behavior sp user (pre ++ p :: suf) nm ids descr hb
  exact ⟨h3, h1, h2⟩

/-- Witness for C10: a name-matching playlist with a null id and one with an
empty-string id each drive the function into the create branch. -/
theorem create_branch_on_falsy_id_witness :
    countEvents ApiEvent.isCreate
      (create_or_replace_playlist spAllOk "u"
        [⟨some "Other", some "X"⟩, ⟨some "N", none⟩, ⟨some "N", some "P9"⟩]
        "N" ["a"] "d").2 = 1
    ∧ countEvents ApiEvent.isReplace
      (create_or_replace_playlist spAllOk "u"
        [⟨some "Other", some "X"⟩, ⟨some "N", none⟩, ⟨some "N", some "P9"⟩]
        "N" ["a"] "d").2 = 0
    ∧ countEvents ApiEvent.isCreate
      (create_or_replace_playlist spAllOk "u" [⟨some "N", some ""⟩] "N" ["a"] "d").2 = 1 := by
  obtain ⟨w1, w2, _⟩ := create_branch_on_falsy_id spAllOk "u"
    [⟨some "Other", some "X"⟩] ⟨some "N", none⟩ [⟨some "N", some "P9"⟩]
    "N" ["a"] "d" (by decide) (by decide) (Or.inl rfl)
  obtain ⟨w3, _, _⟩ := create_branch_on_falsy_id spAllOk "u"
    [] ⟨some "N", some ""⟩ [] "N" ["a"] "d" (by decide) (by decide) (Or.inr rfl)
  exact ⟨w1, w2, w3⟩

/-- `__main__.py` `get_user_playlists`: the `while True` pagination loop.
Each iteration performs one `current_user_playlists` call at the current
offset, appends `playlists_info.get("items", [])`, stops when
`playlists_info.get("next")` is falsy, and otherwise advances the offset by
`limit`.  The loop has no bound in the source; the model carries a fuel
bound and reports an error if it is exhausted (the theorems below always
supply enough fuel). -/
def get_user_playlists_loop (sp : Spotify) (limit : Nat) :
    Nat → Nat → Except String (List Playlist) × List ApiEvent
  | 0, _ => (.error "pagination fuel exhausted", [])
  | fuel + 1, offset =>
    match sp.current_user_playlists offset limit with
    | .error e => (.error e, [.playlistsCall offset limit])
    | .ok page =>
      if truthy page.next then
        match get_user_playlists_loop sp limit fuel (offset + limit) with
        | (.error e, evs) => (.error e, .playlistsCall offset limit :: evs)
        | (.ok rest, evs) =>
          (.ok (page.items.getD [] ++ rest), .playlistsCall offset limit :: evs)
      else (.ok (page.items.getD []), [.playlistsCall offset limit])

/-- `__main__.py` `get_user_playlists`: starts the pagination loop at
offset 0. -/
def get_user_playlists (sp : Spotify) (fuel : Nat) (limit : Nat) :
    Except String (List Playlist) × List ApiEvent :=
  get_user_playlists_loop sp limit fuel 0

/-- Helper: peeling the first index off a `flatMap` over `List.range`. -/
theorem range_succ_flatMap {α : Type} (g : Nat → List α) (n : Nat) :
    (List.range (n + 1)).flatMap g =
      g 0 ++ (List.range n).flatMap fun i => g (i + 1) := by
  rw [List.range_succ_eq_map, List.flatMap_cons, List.flatMap_map]

/-- Helper: peeling the first index off a `map` over `List.range`. -/
theorem range_succ_map {α : Type} (h : Nat → α) (n : Nat) :
    (List.range (n + 1)).map h = h 0 :: (List.range n).map fun i => h (i + 1) := by
  rw [List.range_succ_eq_map, List.map_cons, List.map_map]
  rfl

/-- Helper: the pagination loop, started at any base offset against a
service whose page at offset `base + i * limit` is `pg i`, where the first
`n` pages carry a truthy next indicator and page `n` does not, stops after
page `n` and returns the concatenation of all pages in request order,
having called offsets `base`, `base + limit`, ..., `base + n * limit`. -/
theorem get_user_playlists_loop_pages (sp : Spotify) (limit : Nat) :
    ∀ (n : Nat) (pg : Nat → PlaylistsPage) (fuel base : Nat),
    (∀ i : Nat, i ≤ n →
      sp.current_user_playlists (base + i * limit) limit = .ok (pg i)) →
    (∀ i : Nat, i < n → truthy (pg i).next = true) →
    truthy (pg n).next = false →
    n < fuel →
    get_user_playlists_loop sp limit fuel base =
      (.ok ((List.range (n + 1)).flatMap fun i => (pg i).items.getD []),
        (List.range (n + 1)).map fun i => .playlistsCall (base + i * limit) limit) := by
  intro n
  induction n with
  | zero =>
    intro pg fuel base hok _ hlast hfuel
    cases fuel with
    | zero => omega
    | succ f =>
      have h0 : sp.current_user_playlists base limit = .ok (pg 0) := by
        simpa using hok 0 (Nat.le_refl 0)
      simp [get_user_playlists_loop, h0, hlast]
      exact ⟨by rw [range_succ_flatMap]; simp, by rw [range_succ_map]; simp⟩
  | succ m ih =>
    intro pg fuel base hok htr hlast hfuel
    cases fuel with
    | zero => omega
    | succ f =>
      have h0 : sp.current_user_playlists base limit = .ok (pg 0) := by
        simpa using hok 0 (Nat.zero_le _)
      have htr0 : truthy (pg 0).next = true := htr 0 (Nat.succ_pos m)
      have ihr := ih (fun i => pg (i + 1)) f (base + limit)
        (by
          intro i hi
          have h := hok (i + 1) (by omega)
          rw [show base + limit + i * limit = base + (i + 1) * limit by ring]
          exact h)
        (fun i hi => htr (i + 1) (by omega))
        hlast
        (by omega)
      have hflat : (List.range (m + 1 + 1)).flatMap (fun i => (pg i).items.getD []) =
          (pg 0).items.getD [] ++
            (List.range (m + 1)).flatMap fun i => (pg (i + 1)).items.getD [] :=
        range_succ_flatMap _ _
      have hmap : (List.range (m + 1 + 1)).map
            (fun i => ApiEvent.playlistsCall (base + i * limit) limit) =
          ApiEvent.playlistsCall base limit ::
            (List.range (m + 1)).map
              fun i => ApiEvent.playlistsCall (base + (i + 1) * limit) limit := by
        rw [range_succ_map]
        simp
      have hmap2 : (List.range (m + 1)).map
            (fun i => ApiEvent.playlistsCall (base + (i + 1) * limit) limit) =
          (List.range (m + 1)).map
            fun i => ApiEvent.playlistsCall (base + limit + i * limit) limit := by
        apply List.map_congr_left
        intro a _
        congr 1
        ring
      simp only [get_user_playlists_loop, h0, htr0, ihr]
      rw [hflat, hmap, hmap2]
      simp

/-- C6: `get_user_playlists` keeps requesting pages at offsets 0, limit,
2*limit, ... until a page reports a falsy next indicator, and returns the
concatenation of all pages' items in request order (no item duplicated or
dropped: the result is exactly the flatMap of the pages). -/
theorem get_user_playlists_pagination (sp : Spotify) (limit : Nat)
    (pg : Nat → PlaylistsPage) (n fuel : Nat)
    (hok : ∀ i : Nat, i ≤ n →
      sp.current_user_playlists (i * limit) limit = .ok (pg i))
    (htr : ∀ i : Nat, i < n → truthy (pg i).next = true)
    (hlast : truthy (pg n).next = false)
    (hfuel : n < fuel) :
    get_user_playlists sp fuel limit =
      (.ok ((List.range (n + 1)).flatMap fun i => (pg i).items.getD []),
        (List.range (n + 1)).map fun i => .playlistsCall (i * limit) limit) := by
  have h := get_user_playlists_loop_pages sp limit n pg fuel 0
    (by intro i hi; simpa using hok i hi) htr hlast hfuel
  unfold get_user_playlists
  rw [h]
  simp

/-- The first example page: 50 playlists and a truthy next indicator. -/
def pageOne : PlaylistsPage :=
  ⟨some ((List.range 50).map fun i => ⟨some ("pl" ++ toString i), some ("id" ++ toString i)⟩),
    some "nextUrl"⟩

/-- The second example page: 13 playlists and no next indicator. -/
def pageTwo : PlaylistsPage :=
  ⟨some ((List.range 13).map fun i => ⟨some ("ql" ++ toString i), some ("jd" ++ toString i)⟩),
    none⟩

/-- An oracle serving `pageOne` at offset 0 and `pageTwo` at every other
offset. -/
def spPaged : Spotify :=
  { spAllOk with
    current_user_playlists := fun offset _ =>
      .ok (if offset = 0 then pageOne else pageTwo) }

/-- Witness for C6: a page of 50 items with next set followed by a page of
13 items with next unset yields exactly the 63 items in order, after calls
at offsets 0 and 50. -/
theorem get_user_playlists_pagination_witness :
    get_user_playlists spPaged 5 50 =
      (.ok ((List.range 2).flatMap fun i =>
          ((if i = 0 then pageOne else pageTwo).items.getD [])),
        (List.range 2).map fun i => .playlistsCall (i * 50) 50)
    ∧ ((List.range 2).flatMap fun i =>
        ((if i = 0 then pageOne else pageTwo).items.getD [])).length = 63
    ∧ ((List.range 2).map fun i => ApiEvent.playlistsCall (i * 50) 50) =
      [.playlistsCall 0 50, .playlistsCall 50 50] := by
  refine ⟨?_, by decide, by decide⟩
  exact get_user_playlists_pagination spPaged 50
    (fun i => if i = 0 then pageOne else pageTwo) 1 5
    (by intro i hi; interval_cases i <;> rfl)
    (by intro i hi; interval_cases i; rfl)
    (by rfl) (by omega)

/-- `__main__.py` `get_spotify_token`: returns whatever
`prompt_for_user_token` produced (modelled as the `tokenFromApi` input);
when it is falsy an error is logged, but the (possibly absent) token is
still returned. -/
def get_spotify_token (tokenFromApi : Option String) :
    Option String × List ApiEvent :=
  if truthy tokenFromApi then (tokenFromApi, [])
  else (tokenFromApi, [.logError "Failed to retrieve Spotify token!"])

/-- `__main__.py` `generate_top_playlist`: fetch top tracks, extract ids,
list the user playlists (paginated), resolve the playlist name, build the
description from the current time (`now` stands for
`datetime.now().strftime(...)`), and create or replace the playlist.
When the top-tracks response has no `items` key, `get_track_ids` iterates
over `None` and Python raises a `TypeError`. -/
def generate_top_playlist (sp : Spotify) (user : String) (fuel : Nat)
    (time_frame : String) (now : String) :
    Except String Unit × List ApiEvent :=
  match get_top_tracks sp time_frame 50 with
  | (.error e, evs) => (.error e, evs)
  | (.ok none, evs) =>
    (.error "TypeError: argument of type NoneType is not iterable", evs)
  | (.ok (some tracks), evs) =>
    let top_track_ids := get_track_ids tracks
    match get_user_playlists sp fuel 50 with
    | (.error e, evs2) => (.error e, evs ++ evs2)
    | (.ok user_playlists, evs2) =>
      match get_top_playlist_name time_frame with
      | .error e => (.error e, evs ++ evs2)
      | .ok playlist_name =>
        let playlist_description := "Generated: " ++ now
        match create_or_replace_playlist sp user user_playlists playlist_name
            top_track_ids playlist_description with
        | (r, evs3) => (r, evs ++ evs2 ++ evs3)

/-- The `for time_frame in time_frames` loop of `__main__.py` `main`: each
time frame is fully processed before the next; the first uncaught exception
stops the loop. -/
def runTimeFrames (sp : Spotify) (user : String) (fuel : Nat) (now : String) :
    List String → Except String Unit × List ApiEvent
  | [] => (.ok (), [])
  | tf :: rest =>
    match generate_top_playlist sp user fuel tf now with
    | (.error e, evs) => (.error e, evs)
    | (.ok _, evs) =>
      match runTimeFrames sp user fuel now rest with
      | (r, evs2) => (r, evs ++ evs2)

/-- Auxiliary for `splitComma`: walks the characters, cutting at each
comma. -/
def splitCommaAux : List Char → List Char → List String
  | [], acc => [String.mk acc.reverse]
  | c :: cs, acc =>
    if c = ',' then String.mk acc.reverse :: splitCommaAux cs []
    else splitCommaAux cs (c :: acc)

/-- Python `s.split(",")`: splits at every comma; the empty string gives
`[""]`, and empty fields are kept.  (A character-level definition is used
so that concrete runs reduce inside the kernel.) -/
def splitComma (s : String) : List String :=
  splitCommaAux s.data []

/-- `__main__.py` `main`: obtains the token (proceeding whether or not one
was obtained), then reads the `--time-frame` argument.  Line 291 computes
`args.time_frame.split(",") if args.time_frame else DEFAULT_TIME_FRAMES`,
but line 293 immediately overwrites that value with the unconditional
`args.time_frame.split(",")`, so when the option is absent Python raises
`AttributeError` (None has no `split`), and the conditional default is dead
code.  The model reflects the effective behaviour of lines 291-295. -/
def main_entry (sp : Spotify) (user : String) (tokenFromApi : Option String)
    (timeFrameArg : Option String) (fuel : Nat) (now : String) :
    Except String Unit × List ApiEvent :=
  let tokenAndLogs := get_spotify_token tokenFromApi
  match timeFrameArg with
  | none =>
    (.error "AttributeError: NoneType object has no attribute split",
      tokenAndLogs.2)
  | some s =>
    match runTimeFrames sp user fuel now (splitComma s) with
    | (r, evs) => (r, tokenAndLogs.2 ++ evs)

/-- C1 (as a record of the divergence): when the `--time-frame` option is
absent, `main` raises `AttributeError` before processing any time frame:
the run fails with the attribute error and the trace contains no network
call at all (in particular `generate_top_playlist` is never reached),
instead of processing the default frames `short_term` and `medium_term`. -/
theorem main_no_time_frame_crashes (sp : Spotify) (user : String)
    (tokenFromApi : Option String) (fuel : Nat) (now : String) :
    (main_entry sp user tokenFromApi none fuel now).1 =
      .error "AttributeError: NoneType object has no attribute split"
    ∧ ((main_entry sp user tokenFromApi none fuel now).2.filter ApiEvent.isApiCall) = []
    ∧ DEFAULT_TIME_FRAMES = ["short_term", "medium_term"] := by
  refine ⟨rfl, ?_, rfl⟩
  show ((get_spotify_token tokenFromApi).2.filter ApiEvent.isApiCall) = []
  unfold get_spotify_token
  cases h : truthy tokenFromApi <;> simp [ApiEvent.isApiCall]

/-- Counterexample to C2 as stated: with token acquisition yielding no
token, `main_entry` logs the failure but still proceeds: given a time-frame
argument it reaches the fetch stage and performs a top-tracks network call
(here the call fails remotely, which is what ends the run — not the missing
token). -/
theorem main_auth_failure_counterexample :
    main_entry spAllFail "u" none (some "short_term") 1 "2024-01-01 00:00" =
      (.error "network down",
        [.logError "Failed to retrieve Spotify token!",
          .topTracksCall 50 "short_term"])
    ∧ countEvents ApiEvent.isApiCall
        (main_entry spAllFail "u" none (some "short_term") 1 "2024-01-01 00:00").2 = 1 :=
  ⟨rfl, rfl⟩

/-- C2 (amended): when token acquisition yields no token the failure is
logged, but execution still proceeds: with a time-frame argument present,
`main_entry` behaves exactly like the time-frame loop run on the split
argument, with the error log prepended — the fetch/sync stages are not
prevented. -/
theorem main_auth_failure_logged_but_proceeds (sp : Spotify) (user : String)
    (tokenFromApi : Option String) (s : String) (fuel : Nat) (now : String)
    (h : truthy tokenFromApi = false) :
    main_entry sp user tokenFromApi (some s) fuel now =
      ((runTimeFrames sp user fuel now (splitComma s)).1,
        .logError "Failed to retrieve Spotify token!" ::
          (runTimeFrames sp user fuel now (splitComma s)).2) := by
  unfold main_entry get_spotify_token
  rw [h]
  cases hr : runTimeFrames sp user fuel now (splitComma s) with
  | mk r evs => simp [hr]

/-- Witness for the amended C2 at a concrete run: token absent, one
time frame requested, all remote calls failing. -/
theorem main_auth_failure_logged_but_proceeds_witness :
    truthy none = false
    ∧ main_entry spAllFail "u" none (some "short_term") 1 "2024-01-01 00:00" =
      ((runTimeFrames spAllFail "u" 1 "2024-01-01 00:00" (splitComma "short_term")).1,
        .logError "Failed to retrieve Spotify token!" ::
          (runTimeFrames spAllFail "u" 1 "2024-01-01 00:00" (splitComma "short_term")).2) :=
  ⟨rfl, main_auth_failure_logged_but_proceeds spAllFail "u" none "short_term" 1
    "2024-01-01 00:00" rfl⟩

/-- An oracle where everything succeeds except the description update. -/
def spChangeFails : Spotify :=
  { spAllOk with playlist_change_details := fun _ _ => .error "change failed" }

/-- Counterexample to C3 as stated: an error raised by the track-replacement
call is re-raised verbatim by `create_or_replace_playlist` — the propagated
message is exactly the underlying one, with no wrapping identifying the
failed operation. -/
theorem remote_error_wrapping_counterexample :
    spAllFail.user_playlist_replace_tracks "u" "P1" ["a"] = .error "network down"
    ∧ create_or_replace_playlist spAllFail "u" [⟨some "N", some "P1"⟩] "N" ["a"] "d" =
      (.error "network down", [.replaceTracksCall "u" "P1" ["a"]]) :=
  ⟨rfl, rfl⟩

/-- C3 (amended): an error raised by the playlist-creation call is wrapped
as `Failed to create playlist:` plus the original message and re-raised;
errors raised by track replacement and by the description update are
re-raised unchanged (not wrapped); and the orchestrator loop catches none
of them — a failing time frame ends the run with that same error, leaving
later time frames unprocessed. -/
theorem remote_error_propagation_spec :
    (∀ (sp : Spotify) (user nm descr e : String),
      sp.user_playlist_create user nm descr = .error e →
      create_playlist sp user nm descr =
        (.error ("Failed to create playlist: " ++ e), [.createCall user nm descr]))
    ∧ (∀ (sp : Spotify) (user : String) (ps : List Playlist) (nm : String)
        (ids : List String) (descr e : String),
      truthy (get_playlist_id_by_name ps nm) = true →
      sp.user_playlist_replace_tracks user
          ((get_playlist_id_by_name ps nm).getD "") ids = .error e →
      create_or_replace_playlist sp user ps nm ids descr =
        (.error e,
          [.replaceTracksCall user ((get_playlist_id_by_name ps nm).getD "") ids]))
    ∧ (∀ (sp : Spotify) (user : String) (ps : List Playlist) (nm : String)
        (ids : List String) (descr e : String),
      truthy (get_playlist_id_by_name ps nm) = true →
      sp.user_playlist_replace_tracks user
          ((get_playlist_id_by_name ps nm).getD "") ids = .ok () →
      sp.playlist_change_details
          ((get_playlist_id_by_name ps nm).getD "") descr = .error e →
      create_or_replace_playlist sp user ps nm ids descr =
        (.error e,
          [.replaceTracksCall user ((get_playlist_id_by_name ps nm).getD "") ids,
            .changeDetailsCall ((get_playlist_id_by_name ps nm).getD "") descr]))
    ∧ (∀ (sp : Spotify) (user : String) (fuel : Nat) (now tf : String)
        (rest : List String) (e : String) (evs : List ApiEvent),
      generate_top_playlist sp user fuel tf now = (.error e, evs) →
      runTimeFrames sp user fuel now (tf :: rest) = (.error e, evs)) := by
  refine ⟨?_, ?_, ?_, ?_⟩
  · intro sp user nm descr e hc
    simp [create_playlist, hc]
  · intro sp user ps nm ids descr e hb hr
    simp [create_or_replace_playlist, hb, hr]
  · intro sp user ps nm ids descr e hb hr hd
    simp [create_or_replace_playlist, hb, hr, hd]
  · intro sp user fuel now tf rest e evs hg
    simp [runTimeFrames, hg]

/-- Witness for the amended C3 at concrete runs: a failing create is
wrapped; a failing replace and a failing description update propagate
verbatim; a failing time frame ends the loop with that error. -/
theorem remote_error_propagation_spec_witness :
    create_playlist spAllFail "u" "N" "d" =
      (.error "Failed to create playlist: network down", [.createCall "u" "N" "d"])
    ∧ create_or_replace_playlist spAllFail "u" [⟨some "N", some "P1"⟩] "N" ["b"] "d" =
      (.error "network down", [.replaceTracksCall "u" "P1" ["b"]])
    ∧ create_or_replace_playlist spChangeFails "u" [⟨some "N", some "P1"⟩] "N" ["b"] "d" =
      (.error "change failed",
        [.replaceTracksCall "u" "P1" ["b"], .changeDetailsCall "P1" "d"])
    ∧ runTimeFrames spAllFail "u" 1 "2024-01-01 00:00" ["short_term", "medium_term"] =
      (.error "network down", [.topTracksCall 50 "short_term"]) :=
  ⟨remote_error_propagation_spec.1 spAllFail "u" "N" "d" "network down" rfl,
    remote_error_propagation_spec.2.1 spAllFail "u" [⟨some "N", some "P1"⟩]
      "N" ["b"] "d" "network down" rfl rfl,
    remote_error_propagation_spec.2.2.1 spChangeFails "u" [⟨some "N", some "P1"⟩]
      "N" ["b"] "d" "change failed" rfl rfl rfl,
    remote_error_propagation_spec.2.2.2 spAllFail "u" 1 "2024-01-01 00:00"
      "short_term" ["medium_term"] "network down" [.topTracksCall 50 "short_term"] rfl⟩
